import Mathlib

set_option linter.unusedVariables false

/-!
Verification development for the Satwik Farms order backend (src/main.py).

The Python service is shallowly embedded: the ERP (Accu360 / Frappe) HTTP
backend and the local relational store are modelled as explicit oracles
(`ErpWorld`, `StoreWorld`) supplying the outcome of each outbound call, and
the handlers `create_order` and `accu360_webhook` are translated as pure
functions from those oracles and the current database state to a result
(response, new database state, trace of outbound ERP calls made).

A raised Python exception is modelled by `Except.error (e : PyExn)`:
`PyExn.httpExn` is FastAPI's `HTTPException`, `PyExn.otherExn` any other
exception (e.g. an httpx network error / timeout raised by a client call).
Python string truthiness (`if s:` / `x or y`) is modelled explicitly
(`truthyOpt`, `firstTruthy`), and `str.strip()` by `pyStrip`.
-/

namespace SatwikFarms

/-- A raised Python exception: FastAPI `HTTPException status_code detail`,
or any other exception (network error, timeout, ...) carrying a message. -/
inductive PyExn where
  | httpExn (status_code : Nat) (detail : String)
  | otherExn (msg : String)
deriving DecidableEq, Repr

/-- One line item of `CreateOrderRequest` (pydantic model `OrderItem`). -/
structure OrderItem where
  product_id : String
  accu360_sku : String
  name : String
  quantity : Int
  unit_price : Float
  total_price : Float

/-- The request body of `POST /orders` (pydantic model `CreateOrderRequest`). -/
structure CreateOrderRequest where
  customer_name : String
  customer_phone : String
  customer_address : String
  items : List OrderItem
  subtotal : Float
  delivery_fee : Float
  total : Float
  delivery_notes : Option String := none
  discount : Option Float := some 0.0
  promo_code : Option String := none

/-- The request body of `POST /webhooks/accu360` (pydantic `WebhookPayload`). -/
structure WebhookPayload where
  event : String
  order_id : String
  status : String
  timestamp : String
deriving DecidableEq, Repr

/-- A row of the `orders` table (SQLAlchemy model `Order`).  Timestamps are
modelled as abstract `Nat` clock values. -/
structure OrderRow where
  id : String
  accu360_order_id : Option String
  status : String
  customer_name : String
  customer_phone : String
  customer_address : String
  items : List OrderItem
  subtotal : Float
  delivery_fee : Float
  total : Float
  delivery_notes : Option String
  created_at : Nat
  updated_at : Nat

/-- The local order store: the list of rows of the `orders` table. -/
abbrev DB := List OrderRow

/-- Python string truthiness of an optional string (`if x:` where `x` is
`None` or a `str`): true iff present and non-empty. -/
def truthyOpt (o : Option String) : Bool :=
  match o with
  | some s => s != ""
  | none => false

/-- First truthy value of a chain `a or b or c or ...` of optional strings
(Python `or` skips `None` and `""`). -/
def firstTruthy (l : List (Option String)) : Option String :=
  match l with
  | [] => none
  | o :: rest => if truthyOpt o then o else firstTruthy rest

/-- Python `str.strip()`: remove leading and trailing whitespace.  Stated
via structural recursion on the character list so that the kernel can
evaluate it on concrete strings. -/
def pyStrip (s : String) : String :=
  String.mk (((s.data.dropWhile Char.isWhitespace).reverse.dropWhile
    Char.isWhitespace).reverse)

/-- Trace of outbound ERP calls made while handling one request:
the filter strings of customer-search GETs, and the number of
customer-create POSTs, customer detail GETs, customer update PUTs,
address-create POSTs and sales-order POSTs. -/
structure Trace where
  searchFilters : List String
  createCustCalls : Nat
  custGetCalls : Nat
  custPutCalls : Nat
  addrCalls : Nat
  salesCalls : Nat
deriving DecidableEq, Repr

/-- The empty trace: no outbound calls. -/
def Trace.empty : Trace := ⟨[], 0, 0, 0, 0, 0⟩

/-- Concatenation of call traces of two successive code regions. -/
def Trace.append (a b : Trace) : Trace :=
  ⟨a.searchFilters ++ b.searchFilters,
   a.createCustCalls + b.createCustCalls,
   a.custGetCalls + b.custGetCalls,
   a.custPutCalls + b.custPutCalls,
   a.addrCalls + b.addrCalls,
   a.salesCalls + b.salesCalls⟩

/-- Response of the ERP customer-search GET: its HTTP status and, per
returned customer record, the optional `name` field (the opaque customer
ID).  A body that fails to parse yields `customers = []`, exactly like
`safe_response_json` returning `{}` followed by `.get("data", [])`. -/
structure SearchResp where
  status_code : Nat
  customers : List (Option String)
deriving DecidableEq, Repr

/-- Response of the ERP customer-create POST: HTTP status and the optional
`data.name` field of the parsed body. -/
structure CreateCustResp where
  status_code : Nat
  data_name : Option String
deriving DecidableEq, Repr

/-- Response of the ERP customer detail GET used by `sync_customer_fields`:
HTTP status and the four optional fields the code reads from `data`. -/
structure SyncGetResp where
  status_code : Nat
  mobile_number : Option String
  mobile_no : Option String
  customer_full_name : Option String
  customer_name : Option String
deriving DecidableEq, Repr

/-- Response of the ERP address-create POST: HTTP status, the optional
`data.name` and top-level `name` fields, the optional `error` / `message` /
`detail` fields read on failure, and the raw body text. -/
structure AddrResp where
  status_code : Nat
  data_name : Option String
  top_name : Option String
  err : Option String
  message : Option String
  detail : Option String
  text : String
deriving DecidableEq, Repr

/-- Parsed non-empty JSON body of the sales-order POST response: the
optional `data.name` field (the ERP-assigned order name). -/
structure SalesBody where
  data_name : Option String
deriving DecidableEq, Repr

/-- Response of the ERP sales-order POST: HTTP status; `parsed = none`
models `safe_response_json` yielding an empty/unparseable body (falsy
dict), `parsed = some body` a non-empty parsed body; plus the error fields
and raw text read on a non-2xx status. -/
structure SalesResp where
  status_code : Nat
  parsed : Option SalesBody
  err : Option String
  message : Option String
  detail : Option String
  text : String
deriving DecidableEq, Repr

/-- Oracle for the external ERP backend and the process configuration:
`creds_ok` is whether `ACCU360_API_KEY` and `ACCU360_API_SECRET` are both
set, `city_province_ok` whether `ACCU360_DEFAULT_CITY` and
`ACCU360_DEFAULT_PROVINCE` are both set; each remaining field gives the
outcome of the corresponding outbound HTTP call — `Except.error m` models
the client raising a (network/timeout) exception, `Except.ok r` a received
response.  The customer search is keyed by the filter string sent. -/
structure ErpWorld where
  creds_ok : Bool
  city_province_ok : Bool
  search : String → Except String SearchResp
  createCust : Except String CreateCustResp
  syncGet : Except String SyncGetResp
  syncPut : Except String Nat
  addrCreate : Except String AddrResp
  salesOrder : Except String SalesResp

/-- Oracle for the local store: whether the underlying DB operation of the
initial `queued` upsert and of the final (`pending`/`failed`) upsert
succeeds.  A `false` models the store raising inside `save_order_to_db`,
which catches it and rolls back (the database is left unchanged). -/
structure StoreWorld where
  queuedOk : Bool
  finalOk : Bool

/-- `get_accu360_auth_header` (src/main.py lines 127-136): raises
`HTTPException(500)` when either credential is missing, otherwise returns
(the constant header dict is irrelevant to the embedding). -/
def get_accu360_auth_header (w : ErpWorld) : Except PyExn Unit :=
  if !w.creds_ok then
    Except.error (PyExn.httpExn 500 "Accu360 API credentials not configured")
  else
    Except.ok ()

/-- Python `phone[-9:]`: the last 9 characters (the whole string when
shorter). -/
def phone_suffix (phone : String) : String :=
  phone.drop (phone.length - 9)

/-- The customer-search filter string built at src/main.py line 205:
a `like` match on the last 9 digits of the phone number. -/
def search_filter_string (phone : String) : String :=
  "[[\"mobile_no\",\"like\",\"%" ++ phone_suffix phone ++ "%\"]]"

/-- `find_or_create_customer` (src/main.py lines 194-245): search the ERP
customer collection by phone suffix; on a 200 response with a non-empty
customer list return the first record's `name` (falling back to
`customer_name`); otherwise create the customer, returning the created
record's `data.name` on a 200/201 (falling back to `customer_name`), and
`customer_name` itself when creation fails. -/
def find_or_create_customer (w : ErpWorld) (customer_name customer_phone : String) :
    Except PyExn String × Trace :=
  match get_accu360_auth_header w with
  | Except.error e => (Except.error e, Trace.empty)
  | Except.ok _ =>
    let search_filters := search_filter_string customer_phone
    let afterSearch : Trace := { Trace.empty with searchFilters := [search_filters] }
    match w.search search_filters with
    | Except.error m => (Except.error (PyExn.otherExn m), afterSearch)
    | Except.ok resp =>
      match resp.status_code, resp.customers with
      | 200, c :: _ => (Except.ok (c.getD customer_name), afterSearch)
      | _, _ =>
        match w.createCust with
        | Except.error m =>
            (Except.error (PyExn.otherExn m), { afterSearch with createCustCalls := 1 })
        | Except.ok cresp =>
          if cresp.status_code == 200 || cresp.status_code == 201 then
            (Except.ok (cresp.data_name.getD customer_name),
             { afterSearch with createCustCalls := 1 })
          else
            (Except.ok customer_name, { afterSearch with createCustCalls := 1 })

/-- `sync_customer_fields` (src/main.py lines 247-291): re-read the
customer; on a non-200 response return silently; otherwise update the
customer iff the stripped `customer_full_name` is blank, the stripped
`mobile_number` is blank, or the stripped `mobile_number` equals the
stripped `customer_name` or `customer_full_name`.  The PUT's response
status is never inspected. -/
def sync_customer_fields (w : ErpWorld) (customer_id customer_name customer_phone : String) :
    Except PyExn Unit × Trace :=
  match get_accu360_auth_header w with
  | Except.error e => (Except.error e, Trace.empty)
  | Except.ok _ =>
    match w.syncGet with
    | Except.error m => (Except.error (PyExn.otherExn m), { Trace.empty with custGetCalls := 1 })
    | Except.ok r =>
      let t1 : Trace := { Trace.empty with custGetCalls := 1 }
      if r.status_code != 200 then (Except.ok (), t1)
      else
        let current_mobile_number := pyStrip (r.mobile_number.getD "")
        let current_mobile_no := pyStrip (r.mobile_no.getD "")
        let current_full_name := pyStrip (r.customer_full_name.getD "")
        let current_customer_name := pyStrip (r.customer_name.getD "")
        let should_update :=
          current_full_name == ""
          || current_mobile_number == ""
          || current_mobile_number == current_customer_name
          || current_mobile_number == current_full_name
        if !should_update then (Except.ok (), t1)
        else
          match w.syncPut with
          | Except.error m => (Except.error (PyExn.otherExn m), { t1 with custPutCalls := 1 })
          | Except.ok _ => (Except.ok (), { t1 with custPutCalls := 1 })

/-- `create_shipping_address` (src/main.py lines 293-347): raise
`HTTPException(500)` when the default city/province configuration is
missing; otherwise POST the address and, on a 200/201 response whose body
carries a truthy `data.name` or top-level `name`, return that name; in
every other case raise `HTTPException(502)` with an error detail extracted
from the body's `error` / `message` / `detail` fields, falling back to the
stripped response text, falling back to a fixed message. -/
def create_shipping_address
    (w : ErpWorld) (customer_id customer_name customer_phone customer_address : String) :
    Except PyExn String × Trace :=
  if !w.city_province_ok then
    (Except.error (PyExn.httpExn 500 "Accu360 address defaults not configured (city/province)"),
     Trace.empty)
  else
    match get_accu360_auth_header w with
    | Except.error e => (Except.error e, Trace.empty)
    | Except.ok _ =>
      match w.addrCreate with
      | Except.error m => (Except.error (PyExn.otherExn m), { Trace.empty with addrCalls := 1 })
      | Except.ok r =>
        let t1 : Trace := { Trace.empty with addrCalls := 1 }
        let success := r.status_code == 200 || r.status_code == 201
        let address_name := firstTruthy [r.data_name, r.top_name]
        match success, address_name with
        | true, some nm => (Except.ok nm, t1)
        | _, _ =>
          let error_detail :=
            match firstTruthy [r.err, r.message, r.detail] with
            | some d => d
            | none =>
              let text := pyStrip r.text
              if text != "" then text else "Empty response from Accu360"
          (Except.error (PyExn.httpExn 502 ("Accu360 error: " ++ error_detail)), t1)

/-- Update the first row with the given id (SQLAlchemy
`query(...).filter(Order.id == order_id).first()` followed by field
mutation and commit), leaving every other row unchanged. -/
def updateFirst (db : DB) (order_id : String) (f : OrderRow → OrderRow) : DB :=
  match db with
  | [] => []
  | r :: rs => if r.id == order_id then f r :: rs else r :: updateFirst rs order_id f

/-- `save_order_to_db` (src/main.py lines 157-192): upsert keyed on
`order_id` — if a row exists, overwrite its `status`, set
`accu360_order_id` only when a truthy value is supplied, and refresh
`updated_at` (the ORM's `onupdate`); otherwise insert a full new row.  A
failing store operation (`storeOk = false`) is caught and rolled back, so
the function never raises and the database is left unchanged. -/
def save_order_to_db (storeOk : Bool) (db : DB) (order_id : String)
    (accu360_order_id : Option String) (status : String)
    (request : CreateOrderRequest) (now : Nat) : DB :=
  if !storeOk then db
  else
    match db.find? (fun r => r.id == order_id) with
    | some _ =>
      updateFirst db order_id (fun existing =>
        { existing with
          status := status,
          accu360_order_id :=
            if truthyOpt accu360_order_id then accu360_order_id
            else existing.accu360_order_id,
          updated_at := now })
    | none =>
      db ++ [{ id := order_id,
               accu360_order_id := accu360_order_id,
               status := status,
               customer_name := request.customer_name,
               customer_phone := request.customer_phone,
               customer_address := request.customer_address,
               items := request.items,
               subtotal := request.subtotal,
               delivery_fee := request.delivery_fee,
               total := request.total,
               delivery_notes := request.delivery_notes,
               created_at := now,
               updated_at := now }]

/-- `db.query(Order).filter(Order.id == id).first()`: the first stored row
with the given local order id. -/
def getById (db : DB) (order_id : String) : Option OrderRow :=
  db.find? (fun r => r.id == order_id)

/-- The success response body built at src/main.py lines 469-476. -/
structure OrderResponse where
  success : Bool
  order_id : String
  accu360_order_id : String
  status : String
  message : String
  created_at : Nat
deriving DecidableEq, Repr

/-- Result of one `POST /orders` request: the returned body or raised
exception, the database state after the handler, and the ERP call trace. -/
structure HandlerResult where
  response : Except PyExn OrderResponse
  db : DB
  trace : Trace

/-- The `try:` block of `create_order` (src/main.py lines 383-453), up to
and excluding the `pending` upsert: resolve the customer, reconcile its
fields, create the shipping address, submit the sales order, and produce
the `accu360_order_id` — the ERP-assigned `data.name`, falling back to the
local `order_id` itself.  A non-2xx sales response raises
`HTTPException(502)` with the extracted upstream detail; a 2xx response
with an empty/unparseable body raises `HTTPException(502)` as well. -/
def create_order_attempt (w : ErpWorld) (request : CreateOrderRequest) (order_id : String) :
    Except PyExn String × Trace :=
  match find_or_create_customer w request.customer_name request.customer_phone with
  | (Except.error e, t) => (Except.error e, t)
  | (Except.ok customer_id, t1) =>
    match sync_customer_fields w customer_id request.customer_name request.customer_phone with
    | (Except.error e, t) => (Except.error e, Trace.append t1 t)
    | (Except.ok _, t2) =>
      match create_shipping_address w customer_id request.customer_name
          request.customer_phone request.customer_address with
      | (Except.error e, t) => (Except.error e, Trace.append (Trace.append t1 t2) t)
      | (Except.ok shipping_address_name, t3) =>
        let t123 := Trace.append (Trace.append t1 t2) t3
        match get_accu360_auth_header w with
        | Except.error e => (Except.error e, t123)
        | Except.ok _ =>
          match w.salesOrder with
          | Except.error m =>
            (Except.error (PyExn.otherExn m), { t123 with salesCalls := t123.salesCalls + 1 })
          | Except.ok resp =>
            let t4 : Trace := { t123 with salesCalls := t123.salesCalls + 1 }
            if !(resp.status_code == 200 || resp.status_code == 201) then
              let error_detail :=
                match firstTruthy [resp.err, resp.message, resp.detail, some (pyStrip resp.text)] with
                | some d => d
                | none => "Accu360 rejected the order"
              (Except.error (PyExn.httpExn 502 ("Accu360 error: " ++ error_detail)), t4)
            else
              match resp.parsed with
              | none =>
                (Except.error (PyExn.httpExn 502 "Accu360 returned empty or invalid response"), t4)
              | some body => (Except.ok (body.data_name.getD order_id), t4)

/-- The tail of `create_order` (src/main.py lines 455-502) as a function of
the try-block's outcome: on success, upsert `pending` with the ERP order id
and return the success body; on a raised exception, upsert `failed` and
re-raise it — an `HTTPException` as-is, any other exception as
`HTTPException(500, "Internal server error")`. -/
def finish_order (store : StoreWorld) (request : CreateOrderRequest) (order_id : String)
    (db1 : DB) (now : Nat) : Except PyExn String × Trace → HandlerResult
  | (Except.ok accu360_order_id, t) =>
    { response := Except.ok
        { success := true,
          order_id := order_id,
          accu360_order_id := accu360_order_id,
          status := "pending",
          message := "Order submitted successfully",
          created_at := now },
      db := save_order_to_db store.finalOk db1 order_id (some accu360_order_id) "pending"
              request now,
      trace := t }
  | (Except.error e, t) =>
    let db2 := save_order_to_db store.finalOk db1 order_id none "failed" request now
    match e with
    | PyExn.httpExn c d => { response := Except.error (PyExn.httpExn c d), db := db2, trace := t }
    | PyExn.otherExn _ =>
      { response := Except.error (PyExn.httpExn 500 "Internal server error"),
        db := db2, trace := t }

/-- `create_order`, the `POST /orders` handler (src/main.py lines 357-502):
reject with `HTTPException(400)` when any item's `accu360_sku` is empty
(before any side effect); otherwise upsert a `queued` row for the freshly
generated `order_id`, run the ERP orchestration, and finish as in
`finish_order`. -/
def create_order (w : ErpWorld) (store : StoreWorld) (request : CreateOrderRequest)
    (order_id : String) (db : DB) (now : Nat) : HandlerResult :=
  let missing_skus :=
    (request.items.filter (fun item => item.accu360_sku == "")).map (fun item => item.product_id)
  if !missing_skus.isEmpty then
    { response := Except.error (PyExn.httpExn 400
        ("Missing accu360_sku for products: " ++ String.intercalate ", " missing_skus)),
      db := db,
      trace := Trace.empty }
  else
    let db1 := save_order_to_db store.queuedOk db order_id none "queued" request now
    finish_order store request order_id db1 now (create_order_attempt w request order_id)

/-- One webhook row update (src/main.py lines 543-546): overwrite `status`
and refresh `updated_at`. -/
def webhook_update (r : OrderRow) (status : String) (now : Nat) : OrderRow :=
  { r with status := status, updated_at := now }

/-- `accu360_webhook`, the `POST /webhooks/accu360` handler (src/main.py
lines 529-548): look the order up by `accu360_order_id` first, then by
local `id`; if found, unconditionally overwrite that row's status and
refresh its `updated_at`; always return `{"status": "ok"}`.  The
`x_accu360_signature` header is accepted but never read. -/
def accu360_webhook (payload : WebhookPayload) (x_accu360_signature : Option String)
    (db : DB) (now : Nat) : String × DB :=
  let byErp := db.findIdx? (fun r => r.accu360_order_id == some payload.order_id)
  let idx :=
    match byErp with
    | some i => some i
    | none => db.findIdx? (fun r => r.id == payload.order_id)
  match idx with
  | some i =>
    match db[i]? with
    | some r => ("ok", db.set i (webhook_update r payload.status now))
    | none => ("ok", db)
  | none => ("ok", db)

/-! ### Helper lemmas about the store upsert -/

/-- `updateFirst` commutes with lookup: when the update preserves row ids,
finding by id after the update finds the image of the previously found row. -/
theorem find?_updateFirst (db : DB) (order_id : String) (f : OrderRow → OrderRow)
    (hf : ∀ r, (f r).id = r.id) :
    (updateFirst db order_id f).find? (fun r => r.id == order_id) =
      (db.find? (fun r => r.id == order_id)).map f := by
  induction db with
  | nil => rfl
  | cons r rs ih =>
    simp only [updateFirst]
    cases h : (r.id == order_id) with
    | true =>
      have hfr : ((f r).id == order_id) = true := by rw [hf r]; exact h
      simp [h, hfr]
    | false => simp [h, ih]

/-- A successful `save_order_to_db` leaves a row with the requested id whose
status is the requested status, and whose `accu360_order_id` is the supplied
value whenever that value is truthy. -/
theorem getById_save (db : DB) (order_id : String) (acc : Option String) (st : String)
    (request : CreateOrderRequest) (now : Nat) :
    ∃ r, getById (save_order_to_db true db order_id acc st request now) order_id = some r ∧
      r.status = st ∧ (truthyOpt acc = true → r.accu360_order_id = acc) := by
  unfold save_order_to_db getById
  cases hfind : db.find? (fun r => r.id == order_id) with
  | some r0 =>
    simp only [Bool.not_true, Bool.false_eq_true, if_false, hfind]
    have hupd := find?_updateFirst db order_id (fun existing =>
        { existing with
          status := st,
          accu360_order_id :=
            if truthyOpt acc then acc
            else existing.accu360_order_id,
          updated_at := now }) (fun r => rfl)
    rw [hupd, hfind]
    refine ⟨_, rfl, rfl, ?_⟩
    intro ht
    simp [ht]
  | none =>
    simp only [Bool.not_true, Bool.false_eq_true, if_false, hfind]
    rw [List.find?_append, hfind]
    simp

/-- A failing store operation leaves the database unchanged. -/
theorem save_fail (db : DB) (order_id : String) (acc : Option String) (st : String)
    (request : CreateOrderRequest) (now : Nat) :
    save_order_to_db false db order_id acc st request now = db := rfl

/-! ### Helper lemmas about the individual ERP steps -/

/-- Customer resolution when the search returns HTTP 200 with at least one
match: the first match's `name` (with the raw customer name as fallback) is
returned, and no create call is made. -/
theorem find_or_create_customer_found (w : ErpWorld) (name phone : String)
    (resp : SearchResp) (c : Option String) (cs : List (Option String))
    (hcred : w.creds_ok = true)
    (hsearch : w.search (search_filter_string phone) = Except.ok resp)
    (hstat : resp.status_code = 200) (hcust : resp.customers = c :: cs) :
    find_or_create_customer w name phone =
      (Except.ok (c.getD name),
       { Trace.empty with searchFilters := [search_filter_string phone] }) := by
  unfold find_or_create_customer get_accu360_auth_header
  simp [hcred, hsearch, hstat, hcust]

/-- Customer resolution when the search returns HTTP 200 with no match and
the create call returns a response: exactly one create call is made, and
the returned reference is the created record's `data.name` (on 200/201) or
the raw customer name otherwise. -/
theorem find_or_create_customer_nomatch (w : ErpWorld) (name phone : String)
    (resp : SearchResp) (cresp : CreateCustResp)
    (hcred : w.creds_ok = true)
    (hsearch : w.search (search_filter_string phone) = Except.ok resp)
    (hstat : resp.status_code = 200) (hcust : resp.customers = [])
    (hcc : w.createCust = Except.ok cresp) :
    find_or_create_customer w name phone =
      ((if cresp.status_code == 200 || cresp.status_code == 201 then
          Except.ok (cresp.data_name.getD name)
        else Except.ok name),
       { Trace.empty with searchFilters := [search_filter_string phone],
                          createCustCalls := 1 }) := by
  unfold find_or_create_customer get_accu360_auth_header
  simp only [hcred, Bool.not_true, Bool.false_eq_true, if_false, hsearch, hstat, hcust, hcc]
  split <;> simp_all

/-- Field reconciliation when the customer detail read returns a non-200
response: silently swallowed, no update call. -/
theorem sync_customer_fields_read_non200 (w : ErpWorld) (cid name phone : String)
    (g : SyncGetResp) (hcred : w.creds_ok = true)
    (hget : w.syncGet = Except.ok g) (hstat : g.status_code ≠ 200) :
    sync_customer_fields w cid name phone =
      (Except.ok (), { Trace.empty with custGetCalls := 1 }) := by
  unfold sync_customer_fields get_accu360_auth_header
  simp [hcred, hget, hstat]

/-- Field reconciliation on a successful read: an update call is issued
exactly when the stripped full name is blank, the stripped mobile number is
blank, or the stripped mobile number equals the stripped customer name or
stripped full name. -/
theorem sync_customer_fields_update_condition (w : ErpWorld) (cid name phone : String)
    (g : SyncGetResp) (pstat : Nat) (hcred : w.creds_ok = true)
    (hget : w.syncGet = Except.ok g) (hstat : g.status_code = 200)
    (hput : w.syncPut = Except.ok pstat) :
    sync_customer_fields w cid name phone =
      (Except.ok (),
       { Trace.empty with
           custGetCalls := 1,
           custPutCalls :=
             if pyStrip (g.customer_full_name.getD "") == ""
                || pyStrip (g.mobile_number.getD "") == ""
                || pyStrip (g.mobile_number.getD "") == pyStrip (g.customer_name.getD "")
                || pyStrip (g.mobile_number.getD "") == pyStrip (g.customer_full_name.getD "")
             then 1 else 0 }) := by
  unfold sync_customer_fields get_accu360_auth_header
  simp only [hcred, Bool.not_true, Bool.false_eq_true, if_false, hget, hstat]
  simp only [bne_self_eq_false, Bool.not_false, Bool.false_eq_true, if_false]
  split <;> rename_i hcond
  · rw [Bool.not_eq_true'] at hcond
    simp [hcond, Trace.empty]
  · have hc := hcond
    simp at hc
    simp [hput, Trace.empty]
    rw [if_pos (by tauto)]

/-- Field reconciliation when the customer detail read itself raises (a
network error or timeout): the exception propagates out of
`sync_customer_fields`. -/
theorem sync_customer_fields_read_raises (w : ErpWorld) (cid name phone : String)
    (m : String) (hcred : w.creds_ok = true) (hget : w.syncGet = Except.error m) :
    sync_customer_fields w cid name phone =
      (Except.error (PyExn.otherExn m), { Trace.empty with custGetCalls := 1 }) := by
  unfold sync_customer_fields get_accu360_auth_header
  simp [hcred, hget]

/-- Address creation on a 2xx response carrying a truthy name: returns that
name after exactly one address call. -/
theorem create_shipping_address_ok (w : ErpWorld) (cid name phone addr : String)
    (a : AddrResp) (nm : String)
    (hcity : w.city_province_ok = true) (hcred : w.creds_ok = true)
    (ha : w.addrCreate = Except.ok a)
    (hstat : (a.status_code == 200 || a.status_code == 201) = true)
    (hname : firstTruthy [a.data_name, a.top_name] = some nm) :
    create_shipping_address w cid name phone addr =
      (Except.ok nm, { Trace.empty with addrCalls := 1 }) := by
  unfold create_shipping_address get_accu360_auth_header
  simp [hcity, hcred, ha, hstat, hname]

/-- Address creation with the default city/province configuration missing:
raises the configuration `HTTPException(500)` before any ERP call. -/
theorem create_shipping_address_config_missing (w : ErpWorld) (cid name phone addr : String)
    (hcity : w.city_province_ok = false) :
    create_shipping_address w cid name phone addr =
      (Except.error
        (PyExn.httpExn 500 "Accu360 address defaults not configured (city/province)"),
       Trace.empty) := by
  unfold create_shipping_address
  simp [hcity]

/-- When every item carries a non-empty SKU, `create_order` performs the
`queued` upsert and then finishes from the try-block's outcome. -/
theorem create_order_valid_eq (w : ErpWorld) (store : StoreWorld)
    (request : CreateOrderRequest) (order_id : String) (db : DB) (now : Nat)
    (hval : ∀ item ∈ request.items, item.accu360_sku ≠ "") :
    create_order w store request order_id db now =
      finish_order store request order_id
        (save_order_to_db store.queuedOk db order_id none "queued" request now) now
        (create_order_attempt w request order_id) := by
  unfold create_order
  have h1 : request.items.filter (fun item => item.accu360_sku == "") = [] := by
    rw [List.filter_eq_nil_iff]
    intro a ha
    simpa using hval a ha
  simp [h1]

/-- Whenever the customer search call returns a response, the search was
made with exactly one filter: the `like` filter on the phone suffix. -/
theorem find_or_create_customer_searchFilters (w : ErpWorld) (name phone : String)
    (resp : SearchResp) (hcred : w.creds_ok = true)
    (hsearch : w.search (search_filter_string phone) = Except.ok resp) :
    (find_or_create_customer w name phone).2.searchFilters = [search_filter_string phone] := by
  unfold find_or_create_customer get_accu360_auth_header
  simp only [hcred, Bool.not_true, Bool.false_eq_true, if_false, hsearch]
  split
  · rfl
  · split
    · rfl
    · split <;> rfl

/-! ### Claim theorems -/

/-- C1: for every order request that passes SKU validation and whose local
store operations succeed, after the `POST /orders` handler returns the
stored row for the generated `order_id` has status `pending` — exactly when
the handler returns success, i.e. the ERP accepted the sales order — or
`failed`, and is never left at `queued`. -/
theorem claim_C1_terminal_status (w : ErpWorld) (store : StoreWorld)
    (request : CreateOrderRequest) (order_id : String) (db : DB) (now : Nat)
    (hval : ∀ item ∈ request.items, item.accu360_sku ≠ "")
    (hq : store.queuedOk = true) (hf : store.finalOk = true) :
    ∃ r, getById (create_order w store request order_id db now).db order_id = some r ∧
      (r.status = "pending" ∨ r.status = "failed") ∧
      r.status ≠ "queued" ∧
      (r.status = "pending" ↔
        ∃ resp, (create_order w store request order_id db now).response = Except.ok resp) := by
  rw [create_order_valid_eq w store request order_id db now hval]
  rcases hA : create_order_attempt w request order_id with ⟨res, t⟩
  generalize save_order_to_db store.queuedOk db order_id none "queued" request now = db1
  cases res with
  | ok accId =>
    obtain ⟨r, hr, hst, hacc⟩ := getById_save db1 order_id (some accId) "pending" request now
    refine ⟨r, ?_, Or.inl hst, ?_, ?_⟩
    · simpa [finish_order, hf] using hr
    · rw [hst]; decide
    · constructor
      · intro _
        refine ⟨{ success := true, order_id := order_id, accu360_order_id := accId,
                  status := "pending", message := "Order submitted successfully",
                  created_at := now }, ?_⟩
        simp [finish_order]
      · intro _
        exact hst
  | error e =>
    obtain ⟨r, hr, hst, hacc⟩ := getById_save db1 order_id none "failed" request now
    have hrdb : getById (finish_order store request order_id db1 now (Except.error e, t)).db
        order_id = some r := by
      cases e <;> simpa [finish_order, hf] using hr
    refine ⟨r, hrdb, Or.inr hst, ?_, ?_⟩
    · rw [hst]; decide
    · constructor
      · intro hp
        rw [hst] at hp
        exact absurd hp (by decide)
      · rintro ⟨resp, hresp⟩
        cases e <;> simp [finish_order] at hresp

/-- C2: the store upsert never raises past the orchestrator: the handler's
response and its ERP call trace are completely independent of the store
outcomes (and of the pre-existing database state), so when the initial
`queued` upsert fails the orchestration still proceeds through the very
same ERP calls, and a successful ERP submission still returns the success
response to the caller. -/
theorem claim_C2_store_failure_nonfatal (w : ErpWorld) (store store' : StoreWorld)
    (request : CreateOrderRequest) (order_id : String) (db db' : DB) (now : Nat)
    (hval : ∀ item ∈ request.items, item.accu360_sku ≠ "")
    (hq : store.queuedOk = false) :
    ((create_order w store request order_id db now).response =
       (create_order w store' request order_id db' now).response ∧
     (create_order w store request order_id db now).trace =
       (create_order w store' request order_id db' now).trace) ∧
    (∀ accId t, create_order_attempt w request order_id = (Except.ok accId, t) →
      (create_order w store request order_id db now).response = Except.ok
        { success := true, order_id := order_id, accu360_order_id := accId,
          status := "pending", message := "Order submitted successfully",
          created_at := now }) := by
  rw [create_order_valid_eq w store request order_id db now hval,
      create_order_valid_eq w store' request order_id db' now hval]
  refine ⟨⟨?_, ?_⟩, ?_⟩
  · rcases create_order_attempt w request order_id with ⟨res, t⟩
    cases res with
    | ok accId => rfl
    | error e => cases e <;> rfl
  · rcases create_order_attempt w request order_id with ⟨res, t⟩
    cases res with
    | ok accId => rfl
    | error e => cases e <;> rfl
  · intro accId t hA
    rw [hA]
    rfl

/-- C3: an order request containing a line item with an empty ERP SKU is
rejected with `HTTPException(400)` before any side effect: the database is
unchanged and no ERP call is made. -/
theorem claim_C3_missing_sku_rejected (w : ErpWorld) (store : StoreWorld)
    (request : CreateOrderRequest) (order_id : String) (db : DB) (now : Nat)
    (hmiss : ∃ item ∈ request.items, item.accu360_sku = "") :
    (create_order w store request order_id db now).db = db ∧
    (create_order w store request order_id db now).trace = Trace.empty ∧
    ∃ d, (create_order w store request order_id db now).response =
      Except.error (PyExn.httpExn 400 d) := by
  have hne : request.items.filter (fun item => item.accu360_sku == "") ≠ [] := by
    obtain ⟨item, hmem, hsku⟩ := hmiss
    intro hnil
    have := List.filter_eq_nil_iff.mp hnil item hmem
    simp [hsku] at this
  have hmap : ((request.items.filter (fun item => item.accu360_sku == "")).map
      (fun item => item.product_id)).isEmpty = false := by
    rw [List.isEmpty_eq_false]
    simpa using hne
  unfold create_order
  simp only [hmap, Bool.not_false, if_true]
  exact ⟨trivial, trivial, _, rfl⟩

/-- C5: customer resolution queries the ERP customer collection with a
single search whose filter is a `like` match on the last 9 digits of the
phone number; when the search returns HTTP 200 with at least one match, no
create call is made and the first match's opaque `name` is used; when it
returns HTTP 200 with no match, exactly one create call is made. -/
theorem claim_C5_customer_resolution (w : ErpWorld) (name phone : String)
    (resp : SearchResp) (hcred : w.creds_ok = true)
    (hsearch : w.search (search_filter_string phone) = Except.ok resp) :
    (find_or_create_customer w name phone).2.searchFilters = [search_filter_string phone] ∧
    (∀ c cs, resp.status_code = 200 → resp.customers = c :: cs →
      (find_or_create_customer w name phone).2.createCustCalls = 0 ∧
      ∀ cid, c = some cid → (find_or_create_customer w name phone).1 = Except.ok cid) ∧
    (∀ cresp, resp.status_code = 200 → resp.customers = [] →
      w.createCust = Except.ok cresp →
      (find_or_create_customer w name phone).2.createCustCalls = 1) := by
  refine ⟨find_or_create_customer_searchFilters w name phone resp hcred hsearch, ?_, ?_⟩
  · intro c cs hstat hcust
    rw [find_or_create_customer_found w name phone resp c cs hcred hsearch hstat hcust]
    refine ⟨rfl, ?_⟩
    intro cid hcid
    simp [hcid]
  · intro cresp hstat hcust hcc
    rw [find_or_create_customer_nomatch w name phone resp cresp hcred hsearch hstat hcust hcc]

/-- C8: a webhook referencing an unknown order id returns success and
mutates nothing; a webhook whose `order_id` matches a stored row's ERP
order id — or, failing that, a stored row's local id — overwrites exactly
that row's status, refreshes its `updated_at`, and leaves every other row
unchanged (and still returns success). -/
theorem claim_C8_webhook_reconciler (payload : WebhookPayload) (sig : Option String)
    (db : DB) (now : Nat) :
    ((∀ r ∈ db, r.accu360_order_id ≠ some payload.order_id ∧ r.id ≠ payload.order_id) →
      accu360_webhook payload sig db now = ("ok", db)) ∧
    (∀ i r, db.findIdx? (fun r => r.accu360_order_id == some payload.order_id) = some i →
      db[i]? = some r →
      accu360_webhook payload sig db now =
        ("ok", db.set i { r with status := payload.status, updated_at := now }) ∧
      ∀ j, j ≠ i → (accu360_webhook payload sig db now).2[j]? = db[j]?) ∧
    (db.findIdx? (fun r => r.accu360_order_id == some payload.order_id) = none →
      ∀ i r, db.findIdx? (fun r => r.id == payload.order_id) = some i →
      db[i]? = some r →
      accu360_webhook payload sig db now =
        ("ok", db.set i { r with status := payload.status, updated_at := now }) ∧
      ∀ j, j ≠ i → (accu360_webhook payload sig db now).2[j]? = db[j]?) := by
  refine ⟨?_, ?_, ?_⟩
  · intro h
    have h1 : db.findIdx? (fun r => r.accu360_order_id == some payload.order_id) = none := by
      rw [List.findIdx?_eq_none_iff]
      intro x hx
      simpa using (h x hx).1
    have h2 : db.findIdx? (fun r => r.id == payload.order_id) = none := by
      rw [List.findIdx?_eq_none_iff]
      intro x hx
      simpa using (h x hx).2
    unfold accu360_webhook
    simp [h1, h2]
  · intro i r hi hr
    have hres : accu360_webhook payload sig db now =
        ("ok", db.set i { r with status := payload.status, updated_at := now }) := by
      unfold accu360_webhook webhook_update
      simp [hi, hr]
    refine ⟨hres, ?_⟩
    intro j hj
    rw [hres]
    exact List.getElem?_set_ne (Ne.symm hj)
  · intro hnone i r hi hr
    have hres : accu360_webhook payload sig db now =
        ("ok", db.set i { r with status := payload.status, updated_at := now }) := by
      unfold accu360_webhook webhook_update
      simp [hnone, hi, hr]
    refine ⟨hres, ?_⟩
    intro j hj
    rw [hres]
    exact List.getElem?_set_ne (Ne.symm hj)

/-- C9: the webhook handler's entire behaviour — the returned response and
the state mutation — is identical for any two values (including absence)
of the `X-Accu360-Signature` header: the header is never compared to the
configured secret before the status mutation. -/
theorem claim_C9_signature_ignored (payload : WebhookPayload) (s1 s2 : Option String)
    (db : DB) (now : Nat) :
    accu360_webhook payload s1 db now = accu360_webhook payload s2 db now := rfl

/-- C10: when the ERP sales-order submission returns a 2xx response whose
parsed body is non-empty but carries no `data.name`, the order is still
treated as a success: the stored row is set to `pending` with
`accu360_order_id` equal to the local `order_id` itself, and the success
response reports that local id as `accu360_order_id`. -/
theorem claim_C10_missing_erp_name_fallback (w : ErpWorld) (store : StoreWorld)
    (request : CreateOrderRequest) (order_id : String) (db : DB) (now : Nat)
    (resp : SearchResp) (c : Option String) (cs : List (Option String))
    (g : SyncGetResp) (pstat : Nat) (a : AddrResp) (nm : String)
    (s : SalesResp) (body : SalesBody)
    (hval : ∀ item ∈ request.items, item.accu360_sku ≠ "")
    (hq : store.queuedOk = true) (hfin : store.finalOk = true)
    (hid : order_id ≠ "")
    (hcred : w.creds_ok = true) (hcity : w.city_province_ok = true)
    (hsearch : w.search (search_filter_string request.customer_phone) = Except.ok resp)
    (hstat : resp.status_code = 200) (hcust : resp.customers = c :: cs)
    (hget : w.syncGet = Except.ok g) (hgstat : g.status_code = 200)
    (hput : w.syncPut = Except.ok pstat)
    (ha : w.addrCreate = Except.ok a)
    (hastat : (a.status_code == 200 || a.status_code == 201) = true)
    (haname : firstTruthy [a.data_name, a.top_name] = some nm)
    (hso : w.salesOrder = Except.ok s)
    (hsostat : s.status_code = 200)
    (hbody : s.parsed = some body)
    (hnoname : body.data_name = none) :
    (create_order w store request order_id db now).response = Except.ok
      { success := true, order_id := order_id, accu360_order_id := order_id,
        status := "pending", message := "Order submitted successfully",
        created_at := now } ∧
    ∃ r, getById (create_order w store request order_id db now).db order_id = some r ∧
      r.status = "pending" ∧ r.accu360_order_id = some order_id := by
  have hA1 : (create_order_attempt w request order_id).1 = Except.ok order_id := by
    unfold create_order_attempt
    rw [find_or_create_customer_found w request.customer_name request.customer_phone
      resp c cs hcred hsearch hstat hcust]
    dsimp only
    rw [sync_customer_fields_update_condition w (c.getD request.customer_name)
      request.customer_name request.customer_phone g pstat hcred hget hgstat hput]
    dsimp only
    rw [create_shipping_address_ok w (c.getD request.customer_name) request.customer_name
      request.customer_phone request.customer_address a nm hcity hcred ha hastat haname]
    dsimp only
    unfold get_accu360_auth_header
    simp [hcred, hso, hsostat, hbody, hnoname]
  rw [create_order_valid_eq w store request order_id db now hval]
  rcases hA : create_order_attempt w request order_id with ⟨res, t⟩
  rw [hA] at hA1
  simp only at hA1
  subst hA1
  constructor
  · simp [finish_order]
  · obtain ⟨r, hr, hst, hacc⟩ := getById_save
      (save_order_to_db store.queuedOk db order_id none "queued" request now)
      order_id (some order_id) "pending" request now
    refine ⟨r, ?_, hst, ?_⟩
    · simpa [finish_order, hfin] using hr
    · exact hacc (by simp [truthyOpt, hid])

/-! ### Concrete inputs used by counterexamples and witnesses -/

/-- A concrete line item with a non-empty ERP SKU. -/
def sampleItem : OrderItem :=
  { product_id := "P1", accu360_sku := "A1", name := "Tomatoes",
    quantity := 2, unit_price := 1000.0, total_price := 2000.0 }

/-- A concrete valid order request (every item has an ERP SKU). -/
def sampleRequest : CreateOrderRequest :=
  { customer_name := "Jane", customer_phone := "+255712345678",
    customer_address := "12 Farm Road", items := [sampleItem],
    subtotal := 2000.0, delivery_fee := 500.0, total := 2500.0 }

/-- A concrete order request with one item missing its ERP SKU. -/
def sampleBadRequest : CreateOrderRequest :=
  { customer_name := "Jane", customer_phone := "+255712345678",
    customer_address := "12 Farm Road",
    items := [sampleItem, { product_id := "P2", accu360_sku := "", name := "Eggs",
                            quantity := 1, unit_price := 300.0, total_price := 300.0 }],
    subtotal := 2300.0, delivery_fee := 500.0, total := 2800.0 }

/-- A store whose operations all succeed. -/
def allOkStore : StoreWorld := { queuedOk := true, finalOk := true }

/-- A store whose initial `queued` upsert fails. -/
def queuedFailStore : StoreWorld := { queuedOk := false, finalOk := true }

/-- A world with the ERP credential pair absent (every outbound call is
unreachable: the auth-header check raises first). -/
def credsMissingWorld : ErpWorld :=
  { creds_ok := false, city_province_ok := true,
    search := fun _ => Except.error "unreachable",
    createCust := Except.error "unreachable",
    syncGet := Except.error "unreachable",
    syncPut := Except.error "unreachable",
    addrCreate := Except.error "unreachable",
    salesOrder := Except.error "unreachable" }

/-- A world where the customer search finds a match but the customer detail
read raises a network timeout; address creation and sales-order submission
would succeed if reached. -/
def syncTimeoutWorld : ErpWorld :=
  { creds_ok := true, city_province_ok := true,
    search := fun _ => Except.ok { status_code := 200, customers := [some "CUST-77"] },
    createCust := Except.error "unused",
    syncGet := Except.error "ReadTimeout",
    syncPut := Except.error "unused",
    addrCreate := Except.ok
      { status_code := 201, data_name := some "ADDR-1", top_name := none,
        err := none, message := none, detail := none, text := "" },
    salesOrder := Except.ok
      { status_code := 200, parsed := some { data_name := some "SAL-ORD-1" },
        err := none, message := none, detail := none, text := "" } }

/-- A world where the customer search finds a match and the customer detail
read returns HTTP 404; the remaining steps succeed, with a sales-order
response naming `SAL-ORD-9`. -/
def syncRead404World : ErpWorld :=
  { creds_ok := true, city_province_ok := true,
    search := fun _ => Except.ok { status_code := 200, customers := [some "CUST-77"] },
    createCust := Except.error "unused",
    syncGet := Except.ok
      { status_code := 404, mobile_number := none, mobile_no := none,
        customer_full_name := none, customer_name := none },
    syncPut := Except.ok 200,
    addrCreate := Except.ok
      { status_code := 201, data_name := some "ADDR-1", top_name := none,
        err := none, message := none, detail := none, text := "" },
    salesOrder := Except.ok
      { status_code := 200, parsed := some { data_name := some "SAL-ORD-9" },
        err := none, message := none, detail := none, text := "" } }

/-- A world whose customer record holds the placeholder pattern the
reconciliation pass rewrites: `customer_full_name` and `mobile_number` are
both the non-blank value `X`, distinct from the `customer_name` value `Y`. -/
def placeholderSyncWorld : ErpWorld :=
  { creds_ok := true, city_province_ok := true,
    search := fun _ => Except.error "unused",
    createCust := Except.error "unused",
    syncGet := Except.ok
      { status_code := 200, mobile_number := some "X", mobile_no := some "X",
        customer_full_name := some "X", customer_name := some "Y" },
    syncPut := Except.ok 200,
    addrCreate := Except.error "unused",
    salesOrder := Except.error "unused" }

/-- A world whose customer record already holds good, distinct, non-blank
name and mobile fields (the reconciliation no-op case). -/
def goodSyncWorld : ErpWorld :=
  { creds_ok := true, city_province_ok := true,
    search := fun _ => Except.ok { status_code := 200, customers := [some "CUST-77"] },
    createCust := Except.error "unused",
    syncGet := Except.ok
      { status_code := 200, mobile_number := some "+255712345678",
        mobile_no := some "+255712345678", customer_full_name := some "Jane Doe",
        customer_name := some "Jane" },
    syncPut := Except.ok 200,
    addrCreate := Except.ok
      { status_code := 201, data_name := some "ADDR-1", top_name := none,
        err := none, message := none, detail := none, text := "" },
    salesOrder := Except.ok
      { status_code := 200, parsed := some { data_name := some "SAL-ORD-9" },
        err := none, message := none, detail := none, text := "" } }

/-- A world where the whole orchestration succeeds but the 2xx sales-order
response body, though non-empty, carries no `data.name`. -/
def noNameSalesWorld : ErpWorld :=
  { creds_ok := true, city_province_ok := true,
    search := fun _ => Except.ok { status_code := 200, customers := [some "CUST-77"] },
    createCust := Except.error "unused",
    syncGet := Except.ok
      { status_code := 200, mobile_number := some "+255712345678",
        mobile_no := some "+255712345678", customer_full_name := some "Jane Doe",
        customer_name := some "Jane" },
    syncPut := Except.ok 200,
    addrCreate := Except.ok
      { status_code := 201, data_name := some "ADDR-1", top_name := none,
        err := none, message := none, detail := none, text := "" },
    salesOrder := Except.ok
      { status_code := 200, parsed := some { data_name := none },
        err := none, message := none, detail := none, text := "" } }

/-- A concrete stored row whose ERP order id is `SAL-ORD-123`. -/
def sampleRow : OrderRow :=
  { id := "SF-20260101-55555", accu360_order_id := some "SAL-ORD-123",
    status := "pending", customer_name := "Jane", customer_phone := "+255712345678",
    customer_address := "12 Farm Road", items := [sampleItem],
    subtotal := 2000.0, delivery_fee := 500.0, total := 2500.0,
    delivery_notes := none, created_at := 0, updated_at := 0 }

/-- A concrete webhook payload addressing `sampleRow` by its ERP order id. -/
def samplePayload : WebhookPayload :=
  { event := "status_update", order_id := "SAL-ORD-123",
    status := "delivered", timestamp := "2026-01-02T08:00:00Z" }

/-! ### C4 (corrected): configuration errors do leave a failed row -/

/-- C4 counterexample: with the ERP credential pair absent, a valid order
request, an empty store and all store operations succeeding, a stored Order
row for the generated id DOES exist after the handler returns (with status
`failed`) — refuting the claim that a configuration error leaves no Order
row in the store. -/
theorem claim_C4_counterexample :
    (getById (create_order credsMissingWorld allOkStore sampleRequest
        "SF-20260101-11111" [] 0).db "SF-20260101-11111").isSome = true ∧
    Option.map OrderRow.status
      (getById (create_order credsMissingWorld allOkStore sampleRequest
        "SF-20260101-11111" [] 0).db "SF-20260101-11111") = some "failed" := by
  constructor <;> rfl

/-- C4 as amended: a missing credential pair (or missing city/province
defaults, given the earlier ERP steps respond) aborts the orchestration
with the configuration `HTTPException(500)` — but it does leave a side
effect: the row created by the initial `queued` persist is present with
status `failed` after the handler returns. -/
theorem claim_C4_amended_config_error_leaves_failed_row (w : ErpWorld) (store : StoreWorld)
    (request : CreateOrderRequest) (order_id : String) (db : DB) (now : Nat)
    (hval : ∀ item ∈ request.items, item.accu360_sku ≠ "")
    (hq : store.queuedOk = true) (hf : store.finalOk = true) :
    (w.creds_ok = false →
      (∃ r, getById (create_order w store request order_id db now).db order_id = some r ∧
        r.status = "failed") ∧
      (create_order w store request order_id db now).response =
        Except.error (PyExn.httpExn 500 "Accu360 API credentials not configured")) ∧
    (w.creds_ok = true → w.city_province_ok = false →
      ∀ resp c cs g pstat,
        w.search (search_filter_string request.customer_phone) = Except.ok resp →
        resp.status_code = 200 → resp.customers = c :: cs →
        w.syncGet = Except.ok g → g.status_code = 200 → w.syncPut = Except.ok pstat →
        (∃ r, getById (create_order w store request order_id db now).db order_id = some r ∧
          r.status = "failed") ∧
        (create_order w store request order_id db now).response =
          Except.error
            (PyExn.httpExn 500 "Accu360 address defaults not configured (city/province)")) := by
  constructor
  · intro hcreds
    have hA : create_order_attempt w request order_id =
        (Except.error (PyExn.httpExn 500 "Accu360 API credentials not configured"),
         Trace.empty) := by
      unfold create_order_attempt find_or_create_customer get_accu360_auth_header
      simp [hcreds]
    rw [create_order_valid_eq w store request order_id db now hval, hA]
    obtain ⟨r, hr, hst, hacc⟩ := getById_save
      (save_order_to_db store.queuedOk db order_id none "queued" request now)
      order_id none "failed" request now
    constructor
    · exact ⟨r, by simpa [finish_order, hf] using hr, hst⟩
    · simp [finish_order]
  · intro hcred hcity resp c cs g pstat hsearch hstat hcust hget hgstat hput
    have hA : create_order_attempt w request order_id =
        (Except.error
          (PyExn.httpExn 500 "Accu360 address defaults not configured (city/province)"),
         Trace.append
           (Trace.append { Trace.empty with searchFilters := [search_filter_string
              request.customer_phone] }
             { Trace.empty with
                 custGetCalls := 1,
                 custPutCalls :=
                   if pyStrip (g.customer_full_name.getD "") == ""
                      || pyStrip (g.mobile_number.getD "") == ""
                      || pyStrip (g.mobile_number.getD "") == pyStrip (g.customer_name.getD "")
                      || pyStrip (g.mobile_number.getD "") == pyStrip (g.customer_full_name.getD "")
                   then 1 else 0 })
           Trace.empty) := by
      unfold create_order_attempt
      rw [find_or_create_customer_found w request.customer_name request.customer_phone
        resp c cs hcred hsearch hstat hcust]
      dsimp only
      rw [sync_customer_fields_update_condition w (c.getD request.customer_name)
        request.customer_name request.customer_phone g pstat hcred hget hgstat hput]
      dsimp only
      rw [create_shipping_address_config_missing w (c.getD request.customer_name)
        request.customer_name request.customer_phone request.customer_address hcity]
    rw [create_order_valid_eq w store request order_id db now hval, hA]
    obtain ⟨r, hr, hst, hacc⟩ := getById_save
      (save_order_to_db store.queuedOk db order_id none "queued" request now)
      order_id none "failed" request now
    constructor
    · exact ⟨r, by simpa [finish_order, hf] using hr, hst⟩
    · simp [finish_order]

/-! ### C6 (corrected): the reconciliation update condition -/

/-- C6 counterexample: a customer record whose `customer_full_name` and
`mobile_number` are both non-blank (`X`) and neither equals the raw
customer-name fallback value (`Y`) nevertheless receives an update call
(because the code also updates when the mobile number equals the full
name) — refuting the claim that zero update calls occur for every such
record. -/
theorem claim_C6_counterexample :
    (sync_customer_fields placeholderSyncWorld "CUST-0001" "Y" "+255700000001").2.custPutCalls
      = 1 := by
  rfl

/-- C6 as amended: on a successful read, an update call is issued exactly
when the stripped full-name field is blank, the stripped mobile-number
field is blank, the stripped mobile-number equals the stripped
customer-name field, or the stripped mobile-number equals the stripped
full-name field; in every other case the pass issues zero update calls and
is a pure read (hence a no-op under repeated invocation). -/
theorem claim_C6_amended_update_condition (w : ErpWorld) (cid name phone : String)
    (g : SyncGetResp) (pstat : Nat)
    (hcred : w.creds_ok = true) (hget : w.syncGet = Except.ok g)
    (hgstat : g.status_code = 200) (hput : w.syncPut = Except.ok pstat) :
    ((sync_customer_fields w cid name phone).2.custPutCalls = 1 ↔
      (pyStrip (g.customer_full_name.getD "") = "" ∨
       pyStrip (g.mobile_number.getD "") = "" ∨
       pyStrip (g.mobile_number.getD "") = pyStrip (g.customer_name.getD "") ∨
       pyStrip (g.mobile_number.getD "") = pyStrip (g.customer_full_name.getD ""))) ∧
    (¬ (pyStrip (g.customer_full_name.getD "") = "" ∨
        pyStrip (g.mobile_number.getD "") = "" ∨
        pyStrip (g.mobile_number.getD "") = pyStrip (g.customer_name.getD "") ∨
        pyStrip (g.mobile_number.getD "") = pyStrip (g.customer_full_name.getD "")) →
      sync_customer_fields w cid name phone =
        (Except.ok (), { Trace.empty with custGetCalls := 1 })) := by
  have hkey : ((pyStrip (g.customer_full_name.getD "") == ""
      || pyStrip (g.mobile_number.getD "") == ""
      || pyStrip (g.mobile_number.getD "") == pyStrip (g.customer_name.getD "")
      || pyStrip (g.mobile_number.getD "") == pyStrip (g.customer_full_name.getD ""))
        = true) ↔
      (pyStrip (g.customer_full_name.getD "") = "" ∨
       pyStrip (g.mobile_number.getD "") = "" ∨
       pyStrip (g.mobile_number.getD "") = pyStrip (g.customer_name.getD "") ∨
       pyStrip (g.mobile_number.getD "") = pyStrip (g.customer_full_name.getD "")) := by
    simp only [Bool.or_eq_true, beq_iff_eq]
    tauto
  rw [sync_customer_fields_update_condition w cid name phone g pstat hcred hget hgstat hput]
  constructor
  · cases hbc : (pyStrip (g.customer_full_name.getD "") == ""
        || pyStrip (g.mobile_number.getD "") == ""
        || pyStrip (g.mobile_number.getD "") == pyStrip (g.customer_name.getD "")
        || pyStrip (g.mobile_number.getD "") == pyStrip (g.customer_full_name.getD "")) with
    | true =>
      simp [hbc, hkey.mp hbc]
    | false =>
      have hnr : ¬ (pyStrip (g.customer_full_name.getD "") = "" ∨
          pyStrip (g.mobile_number.getD "") = "" ∨
          pyStrip (g.mobile_number.getD "") = pyStrip (g.customer_name.getD "") ∨
          pyStrip (g.mobile_number.getD "") = pyStrip (g.customer_full_name.getD "")) := by
        intro hr
        rw [hkey.mpr hr] at hbc
        cases hbc
      simp [hbc, hnr]
  · intro hc
    have hbc : (pyStrip (g.customer_full_name.getD "") == ""
        || pyStrip (g.mobile_number.getD "") == ""
        || pyStrip (g.mobile_number.getD "") == pyStrip (g.customer_name.getD "")
        || pyStrip (g.mobile_number.getD "") == pyStrip (g.customer_full_name.getD ""))
          = false := by
      cases h2 : (pyStrip (g.customer_full_name.getD "") == ""
          || pyStrip (g.mobile_number.getD "") == ""
          || pyStrip (g.mobile_number.getD "") == pyStrip (g.customer_name.getD "")
          || pyStrip (g.mobile_number.getD "") == pyStrip (g.customer_full_name.getD "")) with
      | true => exact absurd (hkey.mp h2) hc
      | false => rfl
    simp [hbc, Trace.empty]

/-! ### C7 (corrected): reconciliation failures are only partly swallowed -/

/-- C7 counterexample: when the customer detail read raises a network
timeout (in a world where address creation and sales-order submission would
succeed), the orchestration does NOT continue — no address call is made,
the caller receives `HTTPException(500)`, and the order is marked
`failed` — refuting the claim that any failure internal to the
reconciliation step is swallowed. -/
theorem claim_C7_counterexample :
    (create_order syncTimeoutWorld allOkStore sampleRequest
        "SF-20260101-22222" [] 0).trace.addrCalls = 0 ∧
    (create_order syncTimeoutWorld allOkStore sampleRequest
        "SF-20260101-22222" [] 0).response =
      Except.error (PyExn.httpExn 500 "Internal server error") ∧
    Option.map OrderRow.status
      (getById (create_order syncTimeoutWorld allOkStore sampleRequest
        "SF-20260101-22222" [] 0).db "SF-20260101-22222") = some "failed" := by
  refine ⟨rfl, rfl, rfl⟩

/-- C7 as amended: the reconciliation step swallows non-success ERP
RESPONSES — a non-200 detail read is silently skipped (and the update's
response status is never checked), and the orchestration continues through
address creation and sales-order submission to a `pending` success; but an
EXCEPTION raised inside the step (network error, timeout) propagates: the
orchestration aborts before any address call, the order is marked `failed`,
and the caller receives `HTTPException(500)`. -/
theorem claim_C7_amended_reconciliation_best_effort (w : ErpWorld) (store : StoreWorld)
    (request : CreateOrderRequest) (order_id : String) (db : DB) (now : Nat)
    (resp : SearchResp) (c : Option String) (cs : List (Option String))
    (hval : ∀ item ∈ request.items, item.accu360_sku ≠ "")
    (hq : store.queuedOk = true) (hf : store.finalOk = true)
    (hcred : w.creds_ok = true) (hcity : w.city_province_ok = true)
    (hsearch : w.search (search_filter_string request.customer_phone) = Except.ok resp)
    (hstat : resp.status_code = 200) (hcust : resp.customers = c :: cs) :
    (∀ g a nm s body erpName,
      w.syncGet = Except.ok g → g.status_code ≠ 200 →
      w.addrCreate = Except.ok a →
      (a.status_code == 200 || a.status_code == 201) = true →
      firstTruthy [a.data_name, a.top_name] = some nm →
      w.salesOrder = Except.ok s → s.status_code = 200 →
      s.parsed = some body → body.data_name = some erpName →
      (create_order w store request order_id db now).response = Except.ok
        { success := true, order_id := order_id, accu360_order_id := erpName,
          status := "pending", message := "Order submitted successfully",
          created_at := now } ∧
      (create_order w store request order_id db now).trace.custPutCalls = 0 ∧
      (create_order w store request order_id db now).trace.addrCalls = 1 ∧
      (create_order w store request order_id db now).trace.salesCalls = 1 ∧
      ∃ r, getById (create_order w store request order_id db now).db order_id = some r ∧
        r.status = "pending") ∧
    (∀ m, w.syncGet = Except.error m →
      (create_order w store request order_id db now).response =
        Except.error (PyExn.httpExn 500 "Internal server error") ∧
      (create_order w store request order_id db now).trace.addrCalls = 0 ∧
      (∃ r, getById (create_order w store request order_id db now).db order_id = some r ∧
        r.status = "failed")) := by
  constructor
  · intro g a nm s body erpName hget hgstat ha hastat haname hso hsostat hbody hname
    have hA : create_order_attempt w request order_id =
        (Except.ok erpName,
         { searchFilters := [search_filter_string request.customer_phone],
           createCustCalls := 0, custGetCalls := 1, custPutCalls := 0,
           addrCalls := 1, salesCalls := 1 }) := by
      unfold create_order_attempt
      rw [find_or_create_customer_found w request.customer_name request.customer_phone
        resp c cs hcred hsearch hstat hcust]
      dsimp only
      rw [sync_customer_fields_read_non200 w (c.getD request.customer_name)
        request.customer_name request.customer_phone g hcred hget hgstat]
      dsimp only
      rw [create_shipping_address_ok w (c.getD request.customer_name)
        request.customer_name request.customer_phone request.customer_address
        a nm hcity hcred ha hastat haname]
      dsimp only
      unfold get_accu360_auth_header
      simp [hcred, hso, hsostat, hbody, hname, Trace.append, Trace.empty]
    rw [create_order_valid_eq w store request order_id db now hval, hA]
    obtain ⟨r, hr, hst, hacc⟩ := getById_save
      (save_order_to_db store.queuedOk db order_id none "queued" request now)
      order_id (some erpName) "pending" request now
    refine ⟨by simp [finish_order], rfl, rfl, rfl, r, ?_, hst⟩
    simpa [finish_order, hf] using hr
  · intro m hget
    have hA : create_order_attempt w request order_id =
        (Except.error (PyExn.otherExn m),
         { searchFilters := [search_filter_string request.customer_phone],
           createCustCalls := 0, custGetCalls := 1, custPutCalls := 0,
           addrCalls := 0, salesCalls := 0 }) := by
      unfold create_order_attempt
      rw [find_or_create_customer_found w request.customer_name request.customer_phone
        resp c cs hcred hsearch hstat hcust]
      dsimp only
      rw [sync_customer_fields_read_raises w (c.getD request.customer_name)
        request.customer_name request.customer_phone m hcred hget]
      dsimp only
      simp [Trace.append, Trace.empty]
    rw [create_order_valid_eq w store request order_id db now hval, hA]
    obtain ⟨r, hr, hst, hacc⟩ := getById_save
      (save_order_to_db store.queuedOk db order_id none "queued" request now)
      order_id none "failed" request now
    refine ⟨by simp [finish_order], rfl, r, ?_, hst⟩
    simpa [finish_order, hf] using hr

/-! ### Witnesses: each hypothesis-carrying claim theorem instantiated at a
concrete input -/

/-- C1 witness: the terminal-status invariant at a concrete failing run. -/
theorem claim_C1_witness :
    ∃ r, getById (create_order syncTimeoutWorld allOkStore sampleRequest
        "SF-20260101-00001" [] 0).db "SF-20260101-00001" = some r ∧
      (r.status = "pending" ∨ r.status = "failed") ∧ r.status ≠ "queued" ∧
      (r.status = "pending" ↔ ∃ resp,
        (create_order syncTimeoutWorld allOkStore sampleRequest
          "SF-20260101-00001" [] 0).response = Except.ok resp) :=
  claim_C1_terminal_status syncTimeoutWorld allOkStore sampleRequest
    "SF-20260101-00001" [] 0 (by decide) rfl rfl

/-- C2 witness: with the initial `queued` upsert failing, the response and
trace coincide with those of a run whose store works (over a different
starting database). -/
theorem claim_C2_witness :
    (create_order noNameSalesWorld queuedFailStore sampleRequest
        "SF-20260101-00002" [] 0).response =
      (create_order noNameSalesWorld allOkStore sampleRequest
        "SF-20260101-00002" [sampleRow] 0).response ∧
    (create_order noNameSalesWorld queuedFailStore sampleRequest
        "SF-20260101-00002" [] 0).trace =
      (create_order noNameSalesWorld allOkStore sampleRequest
        "SF-20260101-00002" [sampleRow] 0).trace :=
  (claim_C2_store_failure_nonfatal noNameSalesWorld queuedFailStore allOkStore sampleRequest
    "SF-20260101-00002" [] [sampleRow] 0 (by decide) rfl).1

/-- C3 witness: the missing-SKU request is rejected with no side effect. -/
theorem claim_C3_witness :
    (create_order credsMissingWorld allOkStore sampleBadRequest
        "SF-20260101-00003" [] 0).db = [] ∧
    (create_order credsMissingWorld allOkStore sampleBadRequest
        "SF-20260101-00003" [] 0).trace = Trace.empty ∧
    ∃ d, (create_order credsMissingWorld allOkStore sampleBadRequest
        "SF-20260101-00003" [] 0).response = Except.error (PyExn.httpExn 400 d) :=
  claim_C3_missing_sku_rejected credsMissingWorld allOkStore sampleBadRequest
    "SF-20260101-00003" [] 0 (by decide)

/-- C5 witness: concrete customer resolution with one search match. -/
theorem claim_C5_witness :
    (find_or_create_customer syncTimeoutWorld "Jane" "+255712345678").2.searchFilters
        = [search_filter_string "+255712345678"] ∧
    (find_or_create_customer syncTimeoutWorld "Jane" "+255712345678").2.createCustCalls = 0 ∧
    (find_or_create_customer syncTimeoutWorld "Jane" "+255712345678").1
        = Except.ok "CUST-77" := by
  have h := claim_C5_customer_resolution syncTimeoutWorld "Jane" "+255712345678"
    { status_code := 200, customers := [some "CUST-77"] } rfl rfl
  exact ⟨h.1, (h.2.1 (some "CUST-77") [] rfl rfl).1,
    (h.2.1 (some "CUST-77") [] rfl rfl).2 "CUST-77" rfl⟩

/-- C8 witness: a webhook matching `sampleRow` by ERP id rewrites exactly
that row. -/
theorem claim_C8_witness :
    accu360_webhook samplePayload none [sampleRow] 5 =
      ("ok", [sampleRow].set 0
        { sampleRow with status := samplePayload.status, updated_at := 5 }) :=
  ((claim_C8_webhook_reconciler samplePayload none [sampleRow] 5).2.1 0 sampleRow rfl rfl).1

/-- C10 witness: a concrete successful run whose 2xx sales-order body has
no `data.name`. -/
theorem claim_C10_witness :
    (create_order noNameSalesWorld allOkStore sampleRequest
        "SF-20260101-00004" [] 0).response = Except.ok
      { success := true, order_id := "SF-20260101-00004",
        accu360_order_id := "SF-20260101-00004", status := "pending",
        message := "Order submitted successfully", created_at := 0 } ∧
    ∃ r, getById (create_order noNameSalesWorld allOkStore sampleRequest
        "SF-20260101-00004" [] 0).db "SF-20260101-00004" = some r ∧
      r.status = "pending" ∧ r.accu360_order_id = some "SF-20260101-00004" :=
  claim_C10_missing_erp_name_fallback noNameSalesWorld allOkStore sampleRequest
    "SF-20260101-00004" [] 0
    { status_code := 200, customers := [some "CUST-77"] } (some "CUST-77") []
    { status_code := 200, mobile_number := some "+255712345678",
      mobile_no := some "+255712345678", customer_full_name := some "Jane Doe",
      customer_name := some "Jane" } 200
    { status_code := 201, data_name := some "ADDR-1", top_name := none,
      err := none, message := none, detail := none, text := "" } "ADDR-1"
    { status_code := 200, parsed := some { data_name := none },
      err := none, message := none, detail := none, text := "" } { data_name := none }
    (by decide) rfl rfl (by decide) rfl rfl rfl rfl rfl rfl rfl rfl rfl rfl rfl rfl rfl rfl rfl

/-- C4 (amended) witness: missing credentials leave a concrete `failed`
row and the configuration error response. -/
theorem claim_C4_witness :
    (∃ r, getById (create_order credsMissingWorld allOkStore sampleRequest
        "SF-20260101-33333" [] 0).db "SF-20260101-33333" = some r ∧
      r.status = "failed") ∧
    (create_order credsMissingWorld allOkStore sampleRequest
        "SF-20260101-33333" [] 0).response =
      Except.error (PyExn.httpExn 500 "Accu360 API credentials not configured") :=
  (claim_C4_amended_config_error_leaves_failed_row credsMissingWorld allOkStore sampleRequest
    "SF-20260101-33333" [] 0 (by decide) rfl rfl).1 rfl

/-- C6 (amended) witness: a record with good, distinct, non-blank fields
gets zero update calls — the pass is a pure read. -/
theorem claim_C6_witness :
    sync_customer_fields goodSyncWorld "CUST-77" "Jane" "+255712345678" =
      (Except.ok (), { Trace.empty with custGetCalls := 1 }) := by
  have h := claim_C6_amended_update_condition goodSyncWorld "CUST-77" "Jane" "+255712345678"
    { status_code := 200, mobile_number := some "+255712345678",
      mobile_no := some "+255712345678", customer_full_name := some "Jane Doe",
      customer_name := some "Jane" } 200 rfl rfl rfl rfl
  exact h.2 (by decide)

/-- C7 (amended) witness: a 404 on the reconciliation read is swallowed
and the concrete order still completes as `pending`. -/
theorem claim_C7_witness :
    (create_order syncRead404World allOkStore sampleRequest
        "SF-20260101-66666" [] 0).response = Except.ok
      { success := true, order_id := "SF-20260101-66666",
        accu360_order_id := "SAL-ORD-9", status := "pending",
        message := "Order submitted successfully", created_at := 0 } ∧
    (create_order syncRead404World allOkStore sampleRequest
        "SF-20260101-66666" [] 0).trace.custPutCalls = 0 ∧
    (create_order syncRead404World allOkStore sampleRequest
        "SF-20260101-66666" [] 0).trace.addrCalls = 1 ∧
    (create_order syncRead404World allOkStore sampleRequest
        "SF-20260101-66666" [] 0).trace.salesCalls = 1 ∧
    ∃ r, getById (create_order syncRead404World allOkStore sampleRequest
        "SF-20260101-66666" [] 0).db "SF-20260101-66666" = some r ∧
      r.status = "pending" := by
  have h := claim_C7_amended_reconciliation_best_effort syncRead404World allOkStore
    sampleRequest "SF-20260101-66666" [] 0
    { status_code := 200, customers := [some "CUST-77"] } (some "CUST-77") []
    (by decide) rfl rfl rfl rfl rfl rfl rfl
  exact h.1
    { status_code := 404, mobile_number := none, mobile_no := none,
      customer_full_name := none, customer_name := none }
    { status_code := 201, data_name := some "ADDR-1", top_name := none,
      err := none, message := none, detail := none, text := "" } "ADDR-1"
    { status_code := 200, parsed := some { data_name := some "SAL-ORD-9" },
      err := none, message := none, detail := none, text := "" }
    { data_name := some "SAL-ORD-9" } "SAL-ORD-9"
    rfl (by decide) rfl rfl rfl rfl rfl rfl rfl

end SatwikFarms
